import Mathlib

/-!
Shallow embedding of the evaluation / calibration core of the
ionospheric-storm-prediction backend, together with proofs of the
frozen specification claims.

Conventions of the embedding:
* Python floats are modelled as rationals (`ℚ`).  `round(x, 2)` is modelled
  by `round2` (round half to even at two decimals, Python's rounding mode).
* Timestamps are rationals measured in hours; the calendar conversion
  `timestamp.timetuple().tm_yday` is modelled by the `doy` field of a
  `Measurement` (day-of-year is computed by the Python standard library,
  outside the repository's code).
* `numpy` vectorised comparisons and sums become list operations;
  `np.mean` over a list becomes `ratMean` (on the empty list numpy yields
  NaN with a warning; `ratMean` yields `0` via rational division by zero —
  every use below is guarded exactly where the source guards).
-/

/-- Arithmetic mean of a list of rationals, `np.mean`. -/
def ratMean (xs : List ℚ) : ℚ := xs.sum / xs.length

/-- Round half to even to the nearest integer (Python's `round` mode). -/
def roundHalfEven (q : ℚ) : ℤ :=
  let f := ⌊q⌋
  let r := q - f
  if r < 1/2 then f
  else if 1/2 < r then f + 1
  else if 2 ∣ f then f else f + 1

/-- Python `round(x, 2)`. -/
def round2 (q : ℚ) : ℚ := (roundHalfEven (q * 100) : ℚ) / 100

/-- Python `int(q)`: truncation toward zero. -/
def intTrunc (q : ℚ) : ℤ := if q < 0 then ⌈q⌉ else ⌊q⌋

/-- Python `list(range(start, stop, step))` for a nonnegative start/stop
and positive step (`step = 0` raises in Python; modelled as `[]`). -/
def pyRange (start stop step : ℕ) : List ℕ :=
  if step = 0 then []
  else (List.range ((stop - start + step - 1) / step)).map (fun i => start + i * step)

/-- One hourly record of the Measurement Store
(`HistoricalMeasurement`), restricted to the fields the evaluation core
reads.  `doy` is the day-of-year of `timestamp`. -/
structure Measurement where
  timestamp : ℚ
  doy : ℕ
  kp_index : ℚ
  tec_mean : ℚ
  storm_probability : Option ℚ
deriving Repr, DecidableEq

/-! ## Scoring Engine: `BacktestingService.calculate_metrics`

Regression metrics other than those below are not referenced by any claim;
`rmse` (`np.sqrt(mse)`) is irrational and not modelled. -/

/-- The metric dictionary returned by `calculate_metrics`
(classification part and counts). -/
structure Metrics where
  accuracy : ℚ
  precision : ℚ
  recall_rate : ℚ
  f1_score : ℚ
  false_alarm_rate : ℚ
  true_positives : ℕ
  true_negatives : ℕ
  false_positives : ℕ
  false_negatives : ℕ
  total_predictions : ℕ
  total_storms_actual : ℕ
  total_storms_predicted : ℕ
deriving Repr, DecidableEq

/-- `BacktestingService.calculate_metrics` (lines 99–179): binarise both
arrays at `threshold` (`>=`), count the confusion matrix, and derive the
rates with the source's explicit zero guards. -/
def calculateMetrics (predictions actuals : List ℚ) (threshold : ℚ) : Metrics :=
  let pairs := predictions.zip actuals
  let tp := pairs.countP (fun pa => decide (threshold ≤ pa.1) && decide (threshold ≤ pa.2))
  let tn := pairs.countP (fun pa => !decide (threshold ≤ pa.1) && !decide (threshold ≤ pa.2))
  let fp := pairs.countP (fun pa => decide (threshold ≤ pa.1) && !decide (threshold ≤ pa.2))
  let fnc := pairs.countP (fun pa => !decide (threshold ≤ pa.1) && decide (threshold ≤ pa.2))
  let total := predictions.length
  let accuracy : ℚ := if 0 < total then ((tp : ℚ) + tn) / total else 0
  let precision : ℚ := if 0 < tp + fp then (tp : ℚ) / ((tp : ℚ) + fp) else 0
  let recall_rate : ℚ := if 0 < tp + fnc then (tp : ℚ) / ((tp : ℚ) + fnc) else 0
  let f1 : ℚ := if 0 < precision + recall_rate then 2 * (precision * recall_rate) / (precision + recall_rate) else 0
  let far : ℚ := if 0 < fp + tn then (fp : ℚ) / ((fp : ℚ) + tn) else 0
  { accuracy := accuracy
    precision := precision
    recall_rate := recall_rate
    f1_score := f1
    false_alarm_rate := far
    true_positives := tp
    true_negatives := tn
    false_positives := fp
    false_negatives := fnc
    total_predictions := total
    total_storms_actual := pairs.countP (fun pa => decide (threshold ≤ pa.2))
    total_storms_predicted := pairs.countP (fun pa => decide (threshold ≤ pa.1)) }

/-- Each zipped pair lands in exactly one confusion-matrix cell. -/
theorem countP_confusion_partition (l : List (ℚ × ℚ)) (t : ℚ) :
    l.countP (fun pa => decide (t ≤ pa.1) && decide (t ≤ pa.2)) +
    l.countP (fun pa => !decide (t ≤ pa.1) && !decide (t ≤ pa.2)) +
    l.countP (fun pa => decide (t ≤ pa.1) && !decide (t ≤ pa.2)) +
    l.countP (fun pa => !decide (t ≤ pa.1) && decide (t ≤ pa.2)) = l.length := by
  induction l with
  | nil => rfl
  | cons a l ih =>
    simp only [List.countP_cons, List.length_cons]
    by_cases h1 : t ≤ a.1 <;> by_cases h2 : t ≤ a.2 <;>
      simp [h1, h2] <;> omega

/-- C1: For every pair of equal-length lists of predicted and actual
probabilities and every threshold, the confusion-matrix counts of the
Scoring Engine partition the samples exactly (TP+TN+FP+FN = total), and
the reported accuracy equals (TP+TN)/total (0 when the lists are empty). -/
theorem calculateMetrics_partition_and_accuracy
    (predictions actuals : List ℚ) (threshold : ℚ)
    (hlen : predictions.length = actuals.length) :
    (calculateMetrics predictions actuals threshold).true_positives +
        (calculateMetrics predictions actuals threshold).true_negatives +
        (calculateMetrics predictions actuals threshold).false_positives +
        (calculateMetrics predictions actuals threshold).false_negatives
      = (calculateMetrics predictions actuals threshold).total_predictions ∧
    (calculateMetrics predictions actuals threshold).accuracy
      = (((calculateMetrics predictions actuals threshold).true_positives : ℚ) +
          (calculateMetrics predictions actuals threshold).true_negatives) /
        (calculateMetrics predictions actuals threshold).total_predictions ∧
    ((calculateMetrics predictions actuals threshold).total_predictions = 0 →
      (calculateMetrics predictions actuals threshold).accuracy = 0) := by
  have hzip : (predictions.zip actuals).length = predictions.length := by
    simp [List.length_zip, hlen]
  have hpart := countP_confusion_partition (predictions.zip actuals) threshold
  refine ⟨?_, ?_, ?_⟩
  · simp only [calculateMetrics]
    omega
  · simp only [calculateMetrics]
    rcases Nat.eq_zero_or_pos predictions.length with h0 | hpos
    · have hnil : predictions = [] := List.length_eq_zero.mp h0
      simp [hnil]
    · simp [hpos]
  · intro h0
    simp only [calculateMetrics] at h0 ⊢
    simp [h0]

/-- Witness for C1 on a concrete input (Scenario C of the spec):
predictions [10,20,80,90], actuals [5,15,85,95], threshold 50. -/
theorem calculateMetrics_partition_and_accuracy_witness :
    (calculateMetrics [10, 20, 80, 90] [5, 15, 85, 95] 50).true_positives +
      (calculateMetrics [10, 20, 80, 90] [5, 15, 85, 95] 50).true_negatives +
      (calculateMetrics [10, 20, 80, 90] [5, 15, 85, 95] 50).false_positives +
      (calculateMetrics [10, 20, 80, 90] [5, 15, 85, 95] 50).false_negatives
        = (calculateMetrics [10, 20, 80, 90] [5, 15, 85, 95] 50).total_predictions :=
  (calculateMetrics_partition_and_accuracy [10, 20, 80, 90] [5, 15, 85, 95] 50 (by decide)).1

/-! ## Event Detector: `RecentStormPerformanceService.detect_storms` -/

/-- `RecentStormPerformanceService._classify_storm_severity`:
NOAA G-scale level from the peak Kp value. -/
def classifyStormSeverity (kp : ℚ) : ℕ :=
  if kp ≥ 9 then 5
  else if kp ≥ 8 then 4
  else if kp ≥ 7 then 3
  else if kp ≥ 6 then 2
  else if kp ≥ 5 then 1
  else 0

/-- The summary dictionary built by `_create_storm_summary`
(string formatting of ids omitted). -/
structure StormSummary where
  start_time : ℚ
  end_time : ℚ
  peak_time : ℚ
  duration_hours : ℕ
  peak_kp : ℚ
  avg_kp : ℚ
  max_tec : ℚ
  avg_tec : ℚ
  severity : ℕ
deriving Repr, DecidableEq

/-- `RecentStormPerformanceService._create_storm_summary` (lines 99–130).
`storm_measurements` is nonempty at every call site (a storm run starts
with one measurement), so the `getD` defaults are never reached. -/
def createStormSummary (stormStart : Measurement) (stormMeasurements : List Measurement) :
    StormSummary :=
  let peakKp := ((stormMeasurements.map (·.kp_index)).max?).getD 0
  let avgKp := ratMean (stormMeasurements.map (·.kp_index))
  let peakTime := ((stormMeasurements.find? (fun m => decide (m.kp_index = peakKp))).map
    (·.timestamp)).getD 0
  let tecValues := stormMeasurements.filterMap
    (fun m => if m.tec_mean < 999 then some m.tec_mean else none)
  let maxTec := if tecValues.isEmpty then 0 else (tecValues.max?).getD 0
  let avgTec := if tecValues.isEmpty then 0 else ratMean tecValues
  { start_time := stormStart.timestamp
    end_time := ((stormMeasurements.getLast?).map (·.timestamp)).getD 0
    peak_time := peakTime
    duration_hours := stormMeasurements.length
    peak_kp := peakKp
    avg_kp := avgKp
    max_tec := maxTec
    avg_tec := avgTec
    severity := classifyStormSeverity peakKp }

/-- The single-pass scan of `detect_storms` (lines 62–94): the state is
`none` outside a storm and `some (storm_start, storm_measurements)`
inside one. -/
def detectStormsLoop (kpThreshold : ℚ) (minDurationHours : ℕ) :
    List Measurement → Option (Measurement × List Measurement) → List StormSummary
  | [], none => []
  | [], some (s0, sms) =>
      -- a run still open at input end is emitted under the same rule
      if sms.length ≥ minDurationHours then [createStormSummary s0 sms] else []
  | m :: rest, st =>
      let isStormConditions := m.kp_index ≥ kpThreshold ∧ m.kp_index < 99
      if isStormConditions then
        match st with
        | none => detectStormsLoop kpThreshold minDurationHours rest (some (m, [m]))
        | some (s0, sms) =>
            detectStormsLoop kpThreshold minDurationHours rest (some (s0, sms ++ [m]))
      else
        match st with
        | none => detectStormsLoop kpThreshold minDurationHours rest none
        | some (s0, sms) =>
            (if sms.length ≥ minDurationHours then [createStormSummary s0 sms] else []) ++
              detectStormsLoop kpThreshold minDurationHours rest none

/-- `RecentStormPerformanceService.detect_storms`: emit the qualifying
above-threshold runs of a time-ordered measurement list. -/
def detectStorms (measurements : List Measurement) (kpThreshold : ℚ)
    (minDurationHours : ℕ) : List StormSummary :=
  detectStormsLoop kpThreshold minDurationHours measurements none

/-- Scenario A's activity sequence [3,3,6,7,8,6,3], one measurement per
position, position used as the timestamp. -/
def scenarioA : List Measurement :=
  ([3, 3, 6, 7, 8, 6, 3] : List ℚ).enum.map
    (fun vi => { timestamp := (vi.1 : ℚ), doy := 1, kp_index := vi.2,
                 tec_mean := 10, storm_probability := none })

/-- C3 counterexample: on [3,3,6,7,8,6,3] with threshold 5 and minimum
duration 2 the Event Detector does not emit an event spanning positions
2 through 4: the value 6 at position 5 also satisfies activity ≥ 5, so
the single emitted event ends at position 5, not 4. -/
theorem detectStorms_scenarioA_not_positions_2_to_4 :
    ¬ ((detectStorms scenarioA 5 2).map
        (fun s => (s.start_time, s.end_time, s.peak_kp)) = [(2, 4, 8)]) := by
  decide

/-- C3 amended: on [3,3,6,7,8,6,3] with threshold 5 and minimum duration
2 the Event Detector emits exactly one StormEvent, spanning positions 2
through 5 (duration 4), with peak value 8 (peak at position 4). -/
theorem detectStorms_scenarioA_single_event :
    (detectStorms scenarioA 5 2).map
        (fun s => (s.start_time, s.end_time, s.duration_hours, s.peak_kp, s.peak_time))
      = [(2, 5, 4, 8, 4)] := by
  decide

/-! ## Regional Adjustment and Climatology Table Builder
(`GeographicClimatologyService`, `RegionalEnsembleService`,
`EnsembleStormPredictor.load_climatology`) -/

/-- A geographic region record (`GeographicRegion`), restricted to the
fields the adjustment and lookup code reads. -/
structure Region where
  code : String
  baseline_factor : ℚ
  variability_factor : ℚ
deriving Repr, DecidableEq

/-- `GeographicRegion.EQUATORIAL`. -/
def equatorialRegion : Region := { code := "equatorial", baseline_factor := 14/10, variability_factor := 13/10 }

/-- `GeographicRegion.MID_LATITUDE`. -/
def midLatitudeRegion : Region := { code := "mid_latitude", baseline_factor := 1, variability_factor := 1 }

/-- `GeographicRegion.AURORAL`. -/
def auroralRegion : Region := { code := "auroral", baseline_factor := 85/100, variability_factor := 15/10 }

/-- `GeographicRegion.POLAR`. -/
def polarRegion : Region := { code := "polar", baseline_factor := 7/10, variability_factor := 18/10 }

/-- `GeographicRegion.GLOBAL`. -/
def globalRegion : Region := { code := "global", baseline_factor := 1, variability_factor := 1 }

/-- `GeographicRegion.get_all_regions`. -/
def getAllRegions : List Region :=
  [equatorialRegion, midLatitudeRegion, auroralRegion, polarRegion, globalRegion]

/-- `GeographicRegion.get_region_by_code`. -/
def getRegionByCode (code : String) : Option Region :=
  getAllRegions.find? (fun r => r.code == code)

/-- `GeographicClimatologyService._adjust_tec_for_region` (lines 170–193):
baseline scaling, replaced during storms (Kp > 5) by the storm-excursion
formula around `globalAvgTec` (`self.global_avg_tec`), clamped at 0. -/
def adjustTecForRegion (globalAvgTec : ℚ) (globalTec kpIndex : ℚ) (region : Region) : ℚ :=
  let regionalTec := globalTec * region.baseline_factor
  let regionalTec :=
    if kpIndex > 5 then
      globalAvgTec * region.baseline_factor +
        (globalTec - globalAvgTec) * region.variability_factor
    else regionalTec
  max 0 regionalTec

/-- `RegionalEnsembleService._adjust_for_region` (lines 259–282): the same
adjustment with the hardcoded historical global average 12.74. -/
def adjustForRegion (globalTec kp : ℚ) (region : Region) : ℚ :=
  let regionalTec := globalTec * region.baseline_factor
  let regionalTec :=
    if kp > 5 then
      (1274/100 : ℚ) * region.baseline_factor + (globalTec - 1274/100) * region.variability_factor
    else regionalTec
  max 0 regionalTec

/-- The Kp bin of `build_climatology` and `get_climatology_forecast`:
`int(min(9, max(0, kp)))`. -/
def kpBinClamped (kp : ℚ) : ℕ := (⌊min 9 (max 0 kp)⌋).toNat

/-- The global training mean of `build_climatology` (lines 128–129):
mean TEC over non-fill measurements, 12.74 when none. -/
def globalAvgTec (measurements : List Measurement) : ℚ :=
  let globalTecValues := (measurements.filter (fun m => m.tec_mean < 999)).map (·.tec_mean)
  if globalTecValues.isEmpty then 1274/100 else ratMean globalTecValues

/-- The values collected into one `(day_of_year, kp_bin)` bin of
`build_climatology` (lines 139–155): fill-valued TEC rows are skipped and
each remaining TEC value is regionally adjusted. -/
def cellValues (measurements : List Measurement) (region : Region) (gm : ℚ)
    (key : ℕ × ℕ) : List ℚ :=
  measurements.filterMap (fun m =>
    if m.tec_mean ≥ 999 then none
    else if (m.doy, kpBinClamped m.kp_index) = key then
      some (adjustTecForRegion gm m.tec_mean m.kp_index region)
    else none)

/-- One cell of the regional climatology built by
`GeographicClimatologyService.build_climatology`: the mean of its bin,
`none` for an empty bin. -/
def buildClimatologyCell (measurements : List Measurement) (region : Region)
    (key : ℕ × ℕ) : Option ℚ :=
  let gm := globalAvgTec measurements
  let values := cellValues measurements region gm key
  if values.isEmpty then none else some (ratMean values)

/-- One cell of the table built by `EnsembleStormPredictor.load_climatology`
(lines 87–103): no sentinel filtering, `int(kp)` binning, and every
in-range empty bin back-filled with the global average over all rows. -/
def loadClimatologyCell (measurements : List Measurement) (key : ℕ × ℤ) : Option ℚ :=
  let values := measurements.filterMap (fun m =>
    if (m.doy, intTrunc m.kp_index) = key then some m.tec_mean else none)
  if !values.isEmpty then some (ratMean values)
  else if 1 ≤ key.1 ∧ key.1 ≤ 365 ∧ 0 ≤ key.2 ∧ key.2 ≤ 9 then
    some (ratMean (measurements.map (·.tec_mean)))
  else none

/-- A valid training measurement: day 100, Kp 3, TEC 10. -/
def validMeas : Measurement :=
  { timestamp := 0, doy := 100, kp_index := 3, tec_mean := 10, storm_probability := none }

/-- A sentinel training measurement: day 100, Kp 3, fill-valued TEC 999. -/
def sentinelMeas : Measurement :=
  { timestamp := 1, doy := 100, kp_index := 3, tec_mean := 999, storm_probability := none }

/-- C4 counterexample: in `EnsembleStormPredictor.load_climatology` a
fill-valued measurement (TEC = 999 ≥ 999) does contribute to the cell
statistic: adding it to a bin changes that bin's mean from 10 to 504.5,
so not every cell mean is computed only over non-sentinel measurements. -/
theorem loadClimatology_sentinel_contributes :
    loadClimatologyCell [sentinelMeas, validMeas] (100, 3) = some (1009/2) ∧
    loadClimatologyCell [validMeas] (100, 3) = some 10 := by
  constructor <;>
  · simp only [loadClimatologyCell, sentinelMeas, validMeas, intTrunc,
      List.filterMap_cons, List.filterMap_nil, ratMean]
    norm_num

/-- Removing the fill-valued (TEC ≥ 999) rows changes no bin of the
geographic climatology builder: those rows are skipped by the binning. -/
theorem cellValues_filter_tec_sentinels
    (measurements : List Measurement) (region : Region) (gm : ℚ) (key : ℕ × ℕ) :
    cellValues (measurements.filter (fun m => m.tec_mean < 999)) region gm key
      = cellValues measurements region gm key := by
  induction measurements with
  | nil => rfl
  | cons m rest ih =>
    by_cases hm : m.tec_mean < 999
    · rw [List.filter_cons_of_pos (by simpa using hm)]
      simp only [cellValues, List.filterMap_cons] at ih ⊢
      rw [ih]
    · rw [List.filter_cons_of_neg (by simpa using hm)]
      have hge : m.tec_mean ≥ 999 := not_lt.mp hm
      simp only [cellValues, List.filterMap_cons, if_pos hge] at ih ⊢
      exact ih

/-- C4 amended: in the geographic climatology builder
(`GeographicClimatologyService.build_climatology`) measurements with
fill-valued TEC (≥ 999) contribute to no cell statistic and not to the
global training mean — removing them changes nothing — while the ensemble
builder `load_climatology` applies no sentinel filtering, and sentinel
activity values are clamped into bin 9 rather than excluded. -/
theorem buildClimatology_tec_sentinels_do_not_contribute
    (measurements : List Measurement) (region : Region) (key : ℕ × ℕ) :
    buildClimatologyCell (measurements.filter (fun m => m.tec_mean < 999)) region key
        = buildClimatologyCell measurements region key ∧
    globalAvgTec (measurements.filter (fun m => m.tec_mean < 999))
        = globalAvgTec measurements := by
  have hgm : globalAvgTec (measurements.filter (fun m => m.tec_mean < 999))
      = globalAvgTec measurements := by
    simp only [globalAvgTec, List.filter_filter, Bool.and_self]
  refine ⟨?_, hgm⟩
  simp only [buildClimatologyCell, hgm, cellValues_filter_tec_sentinels]

/-! ## Climatology lookup:
`GeographicClimatologyService.get_climatology_forecast` -/

/-- The 3×3 fallback neighborhood iteration order of the source
(`doy_offset` outer, `kp_offset` inner, each over [-1, 0, 1]). -/
def neighborhoodOffsets : List (ℤ × ℤ) :=
  [(-1, -1), (-1, 0), (-1, 1), (0, -1), (0, 0), (0, 1), (1, -1), (1, 0), (1, 1)]

/-- `GeographicClimatologyService.get_climatology_forecast` (lines
195–236).  `regionalClimatologies` models `self.regional_climatologies`
(a region's table as a partial map on `(doy, kp_bin)` keys), `globalAvg`
models `self.global_avg_tec`.  Tries the exact cell, then the 3×3
neighborhood with day-of-year wraparound, then the region's scalar
baseline. -/
def getClimatologyForecast
    (regionalClimatologies : String → Option ((ℕ × ℕ) → Option ℚ))
    (globalAvg : ℚ) (regionCode : String) (doy : ℕ) (kpScenario : ℚ) : Option ℚ :=
  match regionalClimatologies regionCode with
  | none => none
  | some climatology =>
    let kpBin := kpBinClamped kpScenario
    match climatology (doy, kpBin) with
    | some v => some v
    | none =>
      match neighborhoodOffsets.findSome? (fun off =>
        let adjDoy := ((((doy : ℤ) + off.1 - 1) % 365) + 1).toNat
        let adjKp := (max 0 (min 9 ((kpBin : ℤ) + off.2))).toNat
        climatology (adjDoy, adjKp)) with
      | some v => some v
      | none => (getRegionByCode regionCode).map (fun r => globalAvg * r.baseline_factor)

/-- C5: For every built regional climatology and every in-range query
(day-of-year in [1,366], activity in [0,9]), the climatology lookup
returns a numeric value, never a missing result: it tries the exact cell,
then the 3×3 neighborhood, then the region's scalar baseline. -/
theorem getClimatologyForecast_total
    (regionalClimatologies : String → Option ((ℕ × ℕ) → Option ℚ))
    (globalAvg : ℚ) (regionCode : String) (doy : ℕ) (kpScenario : ℚ)
    (climatology : (ℕ × ℕ) → Option ℚ)
    (hbuilt : regionalClimatologies regionCode = some climatology)
    (region : Region) (hregion : getRegionByCode regionCode = some region)
    (hdoy1 : 1 ≤ doy) (hdoy2 : doy ≤ 366)
    (hkp1 : 0 ≤ kpScenario) (hkp2 : kpScenario ≤ 9) :
    (getClimatologyForecast regionalClimatologies globalAvg regionCode doy
        kpScenario).isSome = true ∧
    (∀ w, climatology (doy, kpBinClamped kpScenario) = some w →
      getClimatologyForecast regionalClimatologies globalAvg regionCode doy
        kpScenario = some w) := by
  constructor
  · simp only [getClimatologyForecast, hbuilt]
    cases hexact : climatology (doy, kpBinClamped kpScenario) with
    | some v => simp
    | none =>
      cases hnb : neighborhoodOffsets.findSome? (fun off =>
          let adjDoy := ((((doy : ℤ) + off.1 - 1) % 365) + 1).toNat
          let adjKp := (max 0 (min 9 ((kpBinClamped kpScenario : ℤ) + off.2))).toNat
          climatology (adjDoy, adjKp)) with
      | some v => simp [hnb]
      | none => simp [hnb, hregion]
  · intro w hw
    simp only [getClimatologyForecast, hbuilt, hw]

/-- Witness for C5: a built (empty-tabled) polar climatology answers an
in-range query through the baseline fallback. -/
theorem getClimatologyForecast_total_witness :
    (getClimatologyForecast
        (fun c => if c = "polar" then some (fun _ => none) else none)
        10 "polar" 100 3).isSome = true :=
  (getClimatologyForecast_total
    (fun c => if c = "polar" then some (fun _ => none) else none)
    10 "polar" 100 3 (fun _ => none) rfl polarRegion rfl
    (by decide) (by decide) (by decide) (by decide)).1

/-! ## Regional Adjustment claims -/

/-- Every value the Regional Adjustment returns is `max 0` of the
computed value, hence nonnegative. -/
theorem adjustTecForRegion_nonneg (gm v kp : ℚ) (r : Region) :
    0 ≤ adjustTecForRegion gm v kp r :=
  le_max_left 0 _

/-- The mean of a list of nonnegative rationals is nonnegative. -/
theorem ratMean_nonneg (xs : List ℚ) (h : ∀ y ∈ xs, 0 ≤ y) : 0 ≤ ratMean xs :=
  div_nonneg (List.sum_nonneg h) (Nat.cast_nonneg _)

/-- C8 counterexample: with value 0, activity 6 (> 5) and the polar
region, `_adjust_for_region` returns 0 (the clamp), not the storm-time
excursion value b·12.74 + (0 − 12.74)·w = −14.014 the claim states. -/
theorem adjustForRegion_not_raw_storm_formula :
    adjustForRegion 0 6 polarRegion
      ≠ (1274/100 : ℚ) * polarRegion.baseline_factor +
          (0 - 1274/100) * polarRegion.variability_factor := by
  simp only [adjustForRegion, polarRegion]
  norm_num

/-- C8 amended: for every value v, activity a and region factors (b, w),
the Regional Adjustment returns max(0, v·b) when a ≤ 5, and
max(0, b·global_mean + (v − global_mean)·w) when a > 5 — the claimed
formulas clamped at zero (`_adjust_tec_for_region` uses the built global
mean, `_adjust_for_region` the hardcoded 12.74). -/
theorem adjust_for_region_formulas (gm v kp : ℚ) (r : Region) :
    (kp ≤ 5 →
      adjustTecForRegion gm v kp r = max 0 (v * r.baseline_factor) ∧
      adjustForRegion v kp r = max 0 (v * r.baseline_factor)) ∧
    (5 < kp →
      adjustTecForRegion gm v kp r
        = max 0 (gm * r.baseline_factor + (v - gm) * r.variability_factor) ∧
      adjustForRegion v kp r
        = max 0 ((1274/100) * r.baseline_factor + (v - 1274/100) * r.variability_factor)) := by
  constructor
  · intro h
    have h5 : ¬ kp > 5 := not_lt.mpr h
    constructor <;> simp [adjustTecForRegion, adjustForRegion, h5]
  · intro h
    constructor <;> simp [adjustTecForRegion, adjustForRegion, h]

/-- Witness for C8 amended at activity 3 (quiet) and 6 (storm). -/
theorem adjust_for_region_formulas_witness :
    adjustTecForRegion 10 2 3 polarRegion = max 0 (2 * polarRegion.baseline_factor) ∧
    adjustForRegion 2 6 polarRegion
      = max 0 ((1274/100) * polarRegion.baseline_factor +
          (2 - 1274/100) * polarRegion.variability_factor) :=
  ⟨((adjust_for_region_formulas 10 2 3 polarRegion).1 (by norm_num)).1,
   ((adjust_for_region_formulas 10 2 6 polarRegion).2 (by norm_num)).2⟩

/-- C10: the Regional Adjustment output is `max 0` of the computed value
(so the storm-excursion formula is floored at 0), both adjustment
implementations return nonnegative values, and every regionally adjusted
climatology cell is therefore nonnegative. -/
theorem regional_adjustment_clamped_nonneg (gm v kp : ℚ) (r : Region) :
    adjustTecForRegion gm v kp r
      = max 0 (if kp > 5 then
          gm * r.baseline_factor + (v - gm) * r.variability_factor
        else v * r.baseline_factor) ∧
    0 ≤ adjustTecForRegion gm v kp r ∧
    0 ≤ adjustForRegion v kp r ∧
    (∀ measurements key x,
      buildClimatologyCell measurements r key = some x → 0 ≤ x) := by
  refine ⟨rfl, le_max_left 0 _, le_max_left 0 _, ?_⟩
  intro ms key x hx
  simp only [buildClimatologyCell] at hx
  by_cases he : (cellValues ms r (globalAvgTec ms) key).isEmpty
  · rw [if_pos he] at hx
    cases hx
  · rw [if_neg he] at hx
    injection hx with hx
    rw [← hx]
    refine ratMean_nonneg _ ?_
    intro y hy
    rcases List.mem_filterMap.mp hy with ⟨m, _, hsome⟩
    by_cases h1 : m.tec_mean ≥ 999
    · rw [if_pos h1] at hsome
      cases hsome
    · rw [if_neg h1] at hsome
      by_cases h2 : (m.doy, kpBinClamped m.kp_index) = key
      · rw [if_pos h2] at hsome
        injection hsome with h3
        rw [← h3]
        exact adjustTecForRegion_nonneg _ _ _ _
      · rw [if_neg h2] at hsome
        cases hsome

/-- Witness for C10: the built polar cell at (100, 3) over one valid
measurement is 7 ≥ 0. -/
theorem regional_adjustment_clamped_nonneg_witness : (0 : ℚ) ≤ 7 :=
  (regional_adjustment_clamped_nonneg 10 2 3 polarRegion).2.2.2
    [validMeas] (100, 3) 7
    (by have hk : kpBinClamped 3 = 3 := by decide
        simp only [buildClimatologyCell, cellValues, globalAvgTec, validMeas,
          List.filterMap_cons, List.filterMap_nil, List.filter_cons,
          List.filter_nil, List.map_cons, List.map_nil, hk]
        norm_num [adjustTecForRegion, polarRegion, ratMean])

/-! ## Ensemble Blender: `EnsembleStormPredictor.predict_storm` -/

/-- The V2.1 Oracle output dictionary, restricted to the keys
`predict_storm` reads (`tec_forecast_24h` is read with `.get`, so it is
optional). -/
structure V2Out where
  storm_probability_24h : ℚ
  tec_forecast_24h : Option (List ℚ)
  model_version : String
deriving Repr, DecidableEq

/-- The result dictionary of `EnsembleStormPredictor.predict_storm`,
restricted to the fields the claims read. -/
structure EnsembleResult where
  storm_probability_24h : ℚ
  tec_forecast_24h : List ℚ
  ensemble_method : String
  model_version : String
  climatology_forecast : List ℚ
deriving Repr, DecidableEq

/-- `EnsembleStormPredictor.get_climatology_forecast` (lines 109–130):
15.0 before the table is loaded, else the `(doy, int(kp))` entry with the
table-wide mean as the missing-key default. -/
def ensembleClimForecast (table : List ((ℕ × ℤ) × ℚ)) (loaded : Bool)
    (doy : ℕ) (kpIndex : ℚ) : ℚ :=
  if !loaded then 15
  else ((table.lookup (doy, intTrunc kpIndex)).getD (ratMean (table.map (·.2))))

/-- The 24 hourly climatology forecasts of `predict_storm` (lines
156–163): one lookup per forecast hour `currentTimestamp + h`,
`h = 1..24`, at the current Kp.  `doyOf` models the standard library's
timestamp → day-of-year conversion. -/
def climForecastList (doyOf : ℚ → ℕ) (table : List ((ℕ × ℤ) × ℚ)) (loaded : Bool)
    (currentTimestamp currentKp : ℚ) : List ℚ :=
  (List.range 24).map (fun h =>
    ensembleClimForecast table loaded (doyOf (currentTimestamp + (h + 1 : ℕ))) currentKp)

/-- Python `{q:.0%}` formatting of a weight. -/
def pctString (q : ℚ) : String := toString (roundHalfEven (q * 100)) ++ "%"

/-- `EnsembleStormPredictor.predict_storm` (lines 142–215).  `v2Result`
is the outcome of the attempted V2.1 Oracle invocation (`none` when it
raised); `latestKp` is `historical_data[-1].get('kp_index', 3.0)`. -/
def predictStorm (doyOf : ℚ → ℕ) (climatologyWeight modelWeight : ℚ)
    (table : List ((ℕ × ℤ) × ℚ)) (loaded : Bool)
    (currentTimestamp : ℚ) (latestKp : Option ℚ)
    (v2Result : Option V2Out) : EnsembleResult :=
  let currentKp := latestKp.getD 3
  let climatologyForecasts := climForecastList doyOf table loaded currentTimestamp currentKp
  match v2Result with
  | some v2 =>
    let v2TecForecast := v2.tec_forecast_24h.getD climatologyForecasts
    let ensembleForecast := List.zipWith
      (fun clim v => round2 (climatologyWeight * clim + modelWeight * v))
      climatologyForecasts v2TecForecast
    { storm_probability_24h := v2.storm_probability_24h
      tec_forecast_24h := ensembleForecast
      ensemble_method := "Climatology (" ++ pctString climatologyWeight ++
        ") + V2.1 Model (" ++ pctString modelWeight ++ ")"
      model_version := v2.model_version
      climatology_forecast := climatologyForecasts.map round2 }
  | none =>
    { storm_probability_24h := 0
      tec_forecast_24h := climatologyForecasts.map round2
      ensemble_method := "Climatology (100%)"
      model_version := "Climatology-Only (V2.1 unavailable)"
      climatology_forecast := climatologyForecasts.map round2 }

/-- C9: if the Oracle invocation fails, the Ensemble Blender still
returns a result whose value forecast is 100% the climatology forecast
(at the code's 2-decimal output rounding) and whose
ensemble-method/model-version provenance names climatology-only; when
the Oracle succeeds, each hour of the returned forecast is the rounded
convex combination climatology_weight·clim + model_weight·oracle. -/
theorem predictStorm_fallback_and_blend
    (doyOf : ℚ → ℕ) (climatologyWeight modelWeight : ℚ)
    (table : List ((ℕ × ℤ) × ℚ)) (loaded : Bool)
    (currentTimestamp : ℚ) (latestKp : Option ℚ) (v2Result : Option V2Out) :
    (v2Result = none →
      (predictStorm doyOf climatologyWeight modelWeight table loaded
          currentTimestamp latestKp v2Result).tec_forecast_24h
        = (climForecastList doyOf table loaded currentTimestamp
            (latestKp.getD 3)).map round2 ∧
      (predictStorm doyOf climatologyWeight modelWeight table loaded
          currentTimestamp latestKp v2Result).ensemble_method
        = "Climatology (100%)" ∧
      (predictStorm doyOf climatologyWeight modelWeight table loaded
          currentTimestamp latestKp v2Result).model_version
        = "Climatology-Only (V2.1 unavailable)") ∧
    (∀ v2 tec, v2Result = some v2 → v2.tec_forecast_24h = some tec →
      (predictStorm doyOf climatologyWeight modelWeight table loaded
          currentTimestamp latestKp v2Result).tec_forecast_24h
        = List.zipWith
            (fun clim v => round2 (climatologyWeight * clim + modelWeight * v))
            (climForecastList doyOf table loaded currentTimestamp (latestKp.getD 3))
            tec) := by
  constructor
  · intro hfail
    subst hfail
    exact ⟨rfl, rfl, rfl⟩
  · intro v2 tec hok htec
    subst hok
    simp only [predictStorm, htec, Option.getD_some]

/-- Witness for C9: both branches at concrete inputs (a failed Oracle
call, and a successful one with a constant forecast). -/
theorem predictStorm_fallback_and_blend_witness :
    (predictStorm (fun _ => 1) (7/10) (3/10) [] false 0 none none).ensemble_method
      = "Climatology (100%)" ∧
    (predictStorm (fun _ => 1) (7/10) (3/10) [] false 0 none
        (some { storm_probability_24h := 0, tec_forecast_24h := some [20],
                model_version := "v2.1" })).tec_forecast_24h
      = List.zipWith (fun clim v => round2 ((7/10) * clim + (3/10) * v))
          (climForecastList (fun _ => 1) [] false 0 3) [20] :=
  ⟨((predictStorm_fallback_and_blend (fun _ => 1) (7/10) (3/10) [] false 0 none
      none).1 rfl).2.1,
   (predictStorm_fallback_and_blend (fun _ => 1) (7/10) (3/10) [] false 0 none
      (some { storm_probability_24h := 0, tec_forecast_24h := some [20],
              model_version := "v2.1" })).2
      { storm_probability_24h := 0, tec_forecast_24h := some [20],
        model_version := "v2.1" } [20] rfl rfl⟩

/-! ## Windowed Backtest Runner: `BacktestingService.run_backtest`

The Oracle (`self.predictor.model.predict` on the prepared features of
the window) is modelled as an opaque function from the window to an
optional raw storm probability in [0,1]; `none` models a raised
exception, which the source logs and skips.  Python's stable `list.sort`
by timestamp is modelled by the stable structural `List.insertionSort`. -/

/-- One emitted `PredictionSample` dictionary (ISO strings and the
derived fields the claims read). -/
structure PredictionSample where
  timestamp : ℚ
  prediction_timestamp : ℚ
  predicted_probability : ℚ
  actual_probability : ℚ
  error : ℚ
  absolute_error : ℚ
  predicted_storm : Bool
  actual_storm : Bool
  correct_classification : Bool
deriving Repr, DecidableEq

/-- The tick sequence of the `while current_time <= end_date` loop with
stride `sample_interval_hours` (the source does not terminate for a
nonpositive stride; the claims assume a positive one). -/
def ticksList (startDate endDate : ℚ) (strideHours : ℕ) : List ℚ :=
  if h : strideHours = 0 ∨ endDate < startDate then []
  else (List.range ((⌊(endDate - startDate) / strideHours⌋).toNat + 1)).map
    (fun i => startDate + i * strideHours)

/-- The lookback window for one tick (lines 424–434): measurements in
`[t − 26, t + 1)`, sorted by timestamp. -/
def windowFor (allMeasurements : List Measurement) (t : ℚ) : List Measurement :=
  (allMeasurements.filter (fun m => t - 26 ≤ m.timestamp ∧ m.timestamp < t + 1)).insertionSort
    (fun a b => a.timestamp ≤ b.timestamp)

/-- The nearest-outcome search (lines 451–461): the measurement
minimizing the absolute distance to `actualTime`, accepted only under
the strict 2-hour tolerance; ties keep the first encountered. -/
def findClosestMeasurement (allMeasurements : List Measurement) (actualTime : ℚ) :
    Option (Measurement × ℚ) :=
  allMeasurements.foldl (fun acc m =>
    let timeDiff := |m.timestamp - actualTime|
    if timeDiff < 2 ∧ (∀ best ∈ acc, timeDiff < best.2) then some (m, timeDiff)
    else acc) none

/-- One iteration of the backtest loop (lines 421–485): `none` when the
tick is skipped (short window, Oracle failure, or no matching outcome
with a ground-truth probability). -/
def sampleAtTick (oracle : List Measurement → Option ℚ)
    (allMeasurements : List Measurement) (stormThreshold : ℚ) (t : ℚ) :
    Option PredictionSample :=
  let windowData := windowFor allMeasurements t
  if windowData.length ≥ 24 then
    match oracle windowData with
    | none => none
    | some rawProb =>
      let predictedProb := rawProb * 100
      let actualTime := t + 24
      match findClosestMeasurement allMeasurements actualTime with
      | none => none
      | some (actualMeasurement, _) =>
        match actualMeasurement.storm_probability with
        | none => none
        | some actualProb =>
          some { timestamp := t
                 prediction_timestamp := actualTime
                 predicted_probability := round2 predictedProb
                 actual_probability := round2 actualProb
                 error := round2 (predictedProb - actualProb)
                 absolute_error := round2 |predictedProb - actualProb|
                 predicted_storm := decide (predictedProb ≥ stormThreshold)
                 actual_storm := decide (actualProb ≥ stormThreshold)
                 correct_classification :=
                   decide ((predictedProb ≥ stormThreshold) ↔ (actualProb ≥ stormThreshold)) }
  else none

/-- All samples produced by one run: per-tick failures skip the tick
(`filterMap`), they never abort the run. -/
def collectSamples (oracle : List Measurement → Option ℚ)
    (allMeasurements : List Measurement) (startDate endDate : ℚ)
    (strideHours : ℕ) (stormThreshold : ℚ) : List PredictionSample :=
  (ticksList startDate endDate strideHours).filterMap
    (sampleAtTick oracle allMeasurements stormThreshold)

/-- The success payload of `run_backtest`, restricted to the fields the
claims read (the analysis/summary blocks are derived presentation). -/
structure BacktestResult where
  total_predictions : ℕ
  metrics : Metrics
  predictions : List PredictionSample
deriving Repr

/-- The final step of `BacktestingService.run_backtest` (lines 487–533):
raise when no valid prediction was generated at all, else assemble the
result payload. -/
def runBacktestFinish (results : List PredictionSample) (stormThreshold : ℚ) :
    Except String BacktestResult :=
  if results.isEmpty then Except.error "No valid predictions generated"
  else Except.ok
    { total_predictions := results.length
      metrics := calculateMetrics (results.map (·.predicted_probability))
        (results.map (·.actual_probability)) stormThreshold
      predictions := results }

/-- `run_backtest`, assembled: raise on < 48 raw measurements, then walk
the ticks and finish. -/
def runBacktest (oracle : List Measurement → Option ℚ)
    (allMeasurements : List Measurement) (startDate endDate : ℚ)
    (stormThreshold : ℚ) (strideHours : ℕ) : Except String BacktestResult :=
  if allMeasurements.length < 48 then
    Except.error "Insufficient data: need at least 48 hours"
  else
    runBacktestFinish (collectSamples oracle allMeasurements startDate endDate
      strideHours stormThreshold) stormThreshold

/-- C6: the Backtest Runner fails if and only if the interval supplies
fewer than 48 raw measurements or zero prediction samples result over
the whole run; otherwise it succeeds, and the returned samples are
exactly the per-tick survivors (a per-tick failure only skips that tick,
it never aborts the run). -/
theorem runBacktest_fails_iff
    (oracle : List Measurement → Option ℚ) (allMeasurements : List Measurement)
    (startDate endDate : ℚ) (stormThreshold : ℚ) (strideHours : ℕ)
    (hstride : 0 < strideHours) :
    ((runBacktest oracle allMeasurements startDate endDate stormThreshold
        strideHours).toOption = none ↔
      (allMeasurements.length < 48 ∨
        collectSamples oracle allMeasurements startDate endDate strideHours
          stormThreshold = [])) ∧
    (∀ r, runBacktest oracle allMeasurements startDate endDate stormThreshold
        strideHours = Except.ok r →
      r.predictions = collectSamples oracle allMeasurements startDate endDate
        strideHours stormThreshold) := by
  constructor
  · unfold runBacktest runBacktestFinish
    by_cases h48 : allMeasurements.length < 48
    · rw [if_pos h48]
      exact ⟨fun _ => Or.inl h48, fun _ => rfl⟩
    · rw [if_neg h48]
      by_cases hres : (collectSamples oracle allMeasurements startDate endDate
          strideHours stormThreshold).isEmpty
      · rw [if_pos hres]
        exact ⟨fun _ => Or.inr (List.isEmpty_iff.mp hres), fun _ => rfl⟩
      · rw [if_neg hres]
        refine ⟨fun hnone => Option.noConfusion hnone, fun hor => ?_⟩
        rcases hor with h | h
        · exact absurd h h48
        · exact absurd (List.isEmpty_iff.mpr h) hres
  · intro r hr
    unfold runBacktest runBacktestFinish at hr
    by_cases h48 : allMeasurements.length < 48
    · rw [if_pos h48] at hr
      exact Except.noConfusion hr
    · rw [if_neg h48] at hr
      by_cases hres : (collectSamples oracle allMeasurements startDate endDate
          strideHours stormThreshold).isEmpty
      · rw [if_pos hres] at hr
        exact Except.noConfusion hr
      · rw [if_neg hres] at hr
        injection hr with hr
        rw [← hr]

/-- Witness for C6: with an empty measurement list (< 48 rows) and a
never-answering Oracle, the run fails. -/
theorem runBacktest_fails_iff_witness :
    (runBacktest (fun _ => none) [] 0 10 40 1).toOption = none :=
  ((runBacktest_fails_iff (fun _ => none) [] 0 10 40 1 (by decide)).1).mpr
    (Or.inl (by decide))

/-! ## Threshold Optimizer: `BacktestingService.optimize_threshold`

`np.std` is the square root of the population variance; the square root
is irrational on ℚ, so the walk-forward branch is parametrized by the
square-root function `sqrtQ` it uses (no claim depends on its values).
The Python source key 'recall' is rendered as `recall_rate` (a reserved
word here). -/

/-- The per-fold / per-threshold score (lines 249–260 and 338–344):
f1, youden = sensitivity + specificity − 1, or cost = fp·c_fa + fn·c_miss;
an unknown method scores 0. -/
def scoreOf (method : String) (costFalseAlarm costMissedStorm : ℚ) (m : Metrics) : ℚ :=
  if method = "f1" then m.f1_score
  else if method = "youden" then m.recall_rate + (1 - m.false_alarm_rate) - 1
  else if method = "cost" then
    (m.false_positives : ℚ) * costFalseAlarm + (m.false_negatives : ℚ) * costMissedStorm
  else 0

/-- The validation slice of fold `fold` (lines 233–241):
`val_start = fold · (n // 5)`, `val_end = min((fold+1)·(n // 5), n)`,
and the Python slice `xs[val_start:val_end]`. -/
def valSlice (xs : List ℚ) (n fold : ℕ) : List ℚ :=
  let foldSize := n / 5
  let valStart := fold * foldSize
  let valEnd := min ((fold + 1) * foldSize) n
  (xs.drop valStart).take (valEnd - valStart)

/-- Metrics of one fold (lines 240–246): `none` when the fold's
validation slice is empty (the source's `continue`). -/
def foldMetrics (threshold : ℚ) (n fold : ℕ) (predictions actuals : List ℚ) :
    Option Metrics :=
  if (valSlice predictions n fold).length = 0 then none
  else some (calculateMetrics (valSlice predictions n fold)
    (valSlice actuals n fold) threshold)

/-- The score the Threshold Optimizer computes for one fold at one
threshold in walk-forward mode. -/
def foldScore (method : String) (costFalseAlarm costMissedStorm threshold : ℚ)
    (n fold : ℕ) (predictions actuals : List ℚ) : Option ℚ :=
  (foldMetrics threshold n fold predictions actuals).map
    (scoreOf method costFalseAlarm costMissedStorm)

/-- One row of the returned `threshold_sweep`. -/
structure SweepEntry where
  threshold : ℕ
  f1_score : ℚ
  precision : ℚ
  recall_rate : ℚ
  accuracy : ℚ
  false_alarm_rate : ℚ
  youden_j : ℚ
  score : ℚ
  stability : ℚ
  score_std : ℚ
  adjusted_score : ℚ
deriving Repr, DecidableEq

/-- The best-threshold tracking of both branches: `best_score` starts at
±infinity (modelled `none`) and `best_threshold` at 40; strict
improvement of the adjusted score updates, ties keep the earlier
(ascending) threshold; `cost` minimizes, the others maximize. -/
def selectBest (method : String) (entries : List SweepEntry) : ℕ × Option ℚ :=
  entries.foldl (fun acc e =>
    match acc.2 with
    | none => (e.threshold, some e.adjusted_score)
    | some b =>
      if (if method = "cost" then e.adjusted_score < b else b < e.adjusted_score)
      then (e.threshold, some e.adjusted_score) else acc) (40, none)

/-- The result dictionary of `optimize_threshold`. -/
structure OptimizeResult where
  optimal_threshold : ℕ
  optimization_method : String
  best_score : Option ℚ
  threshold_sweep : List SweepEntry
  optimal_metrics : Metrics
  n_folds : ℕ
  validation_type : String
deriving Repr

/-- One sweep row of `_optimize_threshold_single_fold` (lines 335–360):
whole-dataset metrics, `stability` fixed at 1 and `score_std` at 0. -/
def singleFoldEntry (predictions actuals : List ℚ) (method : String)
    (costFalseAlarm costMissedStorm : ℚ) (threshold : ℕ) : SweepEntry :=
  let m := calculateMetrics predictions actuals (threshold : ℚ)
  let score := scoreOf method costFalseAlarm costMissedStorm m
  { threshold := threshold
    f1_score := m.f1_score
    precision := m.precision
    recall_rate := m.recall_rate
    accuracy := m.accuracy
    false_alarm_rate := m.false_alarm_rate
    youden_j := m.recall_rate + (1 - m.false_alarm_rate) - 1
    score := score
    stability := 1
    score_std := 0
    adjusted_score := score }

/-- `BacktestingService._optimize_threshold_single_fold` (lines
325–381): the fallback sweep without cross-validation. -/
def optimizeThresholdSingleFold (predictions actuals : List ℚ) (method : String)
    (costFalseAlarm costMissedStorm : ℚ) (thresholdStep : ℕ) : OptimizeResult :=
  let entries := (pyRange 10 91 thresholdStep).map
    (singleFoldEntry predictions actuals method costFalseAlarm costMissedStorm)
  let best := selectBest method entries
  { optimal_threshold := best.1
    optimization_method := method
    best_score := best.2
    threshold_sweep := entries
    optimal_metrics := calculateMetrics predictions actuals (best.1 : ℚ)
    n_folds := 1
    validation_type := "single_fold" }

/-- One sweep row of the walk-forward branch (lines 228–300) at one
threshold: fold metrics over folds 1..4, their scores, the stability
1/(std+0.01) and the stability-adjusted score; `none` when every fold's
validation slice was empty (the source's outer `continue`). -/
def walkForwardEntry (sqrtQ : ℚ → ℚ) (predictions actuals : List ℚ)
    (method : String) (costFalseAlarm costMissedStorm : ℚ) (threshold : ℕ) :
    Option SweepEntry :=
  let n := predictions.length
  let foldMetricsList := (List.range' 1 4).filterMap
    (fun fold => foldMetrics (threshold : ℚ) n fold predictions actuals)
  let foldScores := foldMetricsList.map (scoreOf method costFalseAlarm costMissedStorm)
  if foldMetricsList.isEmpty then none
  else
    let avgScore := ratMean foldScores
    let scoreStd := sqrtQ (ratMean (foldScores.map (fun s => (s - avgScore) * (s - avgScore))))
    let stability := 1 / (scoreStd + 1/100)
    let adjustedScore :=
      if method = "cost" then avgScore * (1 / stability) else avgScore * stability
    let avgRecall := ratMean (foldMetricsList.map (·.recall_rate))
    let avgFar := ratMean (foldMetricsList.map (·.false_alarm_rate))
    some { threshold := threshold
           f1_score := ratMean (foldMetricsList.map (·.f1_score))
           precision := ratMean (foldMetricsList.map (·.precision))
           recall_rate := avgRecall
           accuracy := ratMean (foldMetricsList.map (·.accuracy))
           false_alarm_rate := avgFar
           youden_j := avgRecall + (1 - avgFar) - 1
           score := avgScore
           stability := stability
           score_std := scoreStd
           adjusted_score := adjustedScore }

/-- `BacktestingService.optimize_threshold` (lines 181–323): walk-forward
cross-validation over 5 chronological folds, falling back to the
single-fold sweep when the fold size `n // 5` is below 10. -/
def optimizeThreshold (sqrtQ : ℚ → ℚ) (predictions actuals : List ℚ)
    (method : String) (costFalseAlarm costMissedStorm : ℚ)
    (thresholdStep : ℕ) : OptimizeResult :=
  if predictions.length / 5 < 10 then
    optimizeThresholdSingleFold predictions actuals method costFalseAlarm
      costMissedStorm thresholdStep
  else
    let entries := (pyRange 10 91 thresholdStep).filterMap
      (walkForwardEntry sqrtQ predictions actuals method costFalseAlarm costMissedStorm)
    let best := selectBest method entries
    { optimal_threshold := best.1
      optimization_method := method
      best_score := best.2
      threshold_sweep := entries
      optimal_metrics := calculateMetrics predictions actuals (best.1 : ℚ)
      n_folds := 5
      validation_type := "walk_forward_cv" }

/-- C7: whenever the per-fold sample count (total // 5) is below 10,
`optimize_threshold` returns (it does not raise), falls back to the
single whole-dataset evaluation, and every entry of the returned
threshold sweep reports stability exactly 1. -/
theorem optimizeThreshold_small_data_single_fold
    (sqrtQ : ℚ → ℚ) (predictions actuals : List ℚ) (method : String)
    (costFalseAlarm costMissedStorm : ℚ) (thresholdStep : ℕ)
    (hsmall : predictions.length / 5 < 10) :
    (optimizeThreshold sqrtQ predictions actuals method costFalseAlarm
        costMissedStorm thresholdStep).validation_type = "single_fold" ∧
    ∀ e ∈ (optimizeThreshold sqrtQ predictions actuals method costFalseAlarm
        costMissedStorm thresholdStep).threshold_sweep, e.stability = 1 := by
  constructor
  · unfold optimizeThreshold
    rw [if_pos hsmall]
    rfl
  · intro e he
    unfold optimizeThreshold at he
    rw [if_pos hsmall] at he
    simp only [optimizeThresholdSingleFold] at he
    rcases List.mem_map.mp he with ⟨t, _, rfl⟩
    rfl

/-- Witness for C7: two samples (fold size 0 < 10) with the f1 method. -/
theorem optimizeThreshold_small_data_single_fold_witness :
    (optimizeThreshold (fun q => q) [50, 60] [55, 30] "f1" 1 5 5).validation_type
      = "single_fold" :=
  (optimizeThreshold_small_data_single_fold (fun q => q) [50, 60] [55, 30] "f1" 1 5 5
    (by decide)).1

/-- Two inputs of the same length that agree on a fold's validation
slice produce the same slice. -/
theorem valSlice_eq_of_agree (xs ys : List ℚ) (n fold : ℕ)
    (hx : xs.length = n) (hy : ys.length = n)
    (hagree : ∀ i : ℕ, fold * (n / 5) ≤ i → i < min ((fold + 1) * (n / 5)) n →
      xs[i]? = ys[i]?) :
    valSlice xs n fold = valSlice ys n fold := by
  simp only [valSlice]
  apply List.ext_getElem?
  intro j
  rw [List.getElem?_take, List.getElem?_take, List.getElem?_drop, List.getElem?_drop]
  by_cases hj : j < min ((fold + 1) * (n / 5)) n - fold * (n / 5)
  · rw [if_pos hj, if_pos hj]
    exact hagree _ (by omega) (by omega)
  · rw [if_neg hj, if_neg hj]

/-- C2: in walk-forward mode, each fold is scored alone — for a fixed
number of samples n and fixed threshold and method, the score the
Threshold Optimizer computes for fold f (1 ≤ f < 5) depends only on the
prediction/actual entries inside fold f's contiguous validation slice:
two inputs of length n that agree there get the identical fold-f score,
however the entries outside the fold differ. -/
theorem foldScore_depends_only_on_fold_slice
    (method : String) (costFalseAlarm costMissedStorm threshold : ℚ)
    (n fold : ℕ) (p1 a1 p2 a2 : List ℚ)
    (hp1 : p1.length = n) (ha1 : a1.length = n)
    (hp2 : p2.length = n) (ha2 : a2.length = n)
    (hfold1 : 1 ≤ fold) (hfold5 : fold < 5)
    (hagree : ∀ i : ℕ, fold * (n / 5) ≤ i → i < min ((fold + 1) * (n / 5)) n →
      p1[i]? = p2[i]? ∧ a1[i]? = a2[i]?) :
    foldScore method costFalseAlarm costMissedStorm threshold n fold p1 a1
      = foldScore method costFalseAlarm costMissedStorm threshold n fold p2 a2 := by
  have hp := valSlice_eq_of_agree p1 p2 n fold hp1 hp2
    (fun i h1 h2 => (hagree i h1 h2).1)
  have ha := valSlice_eq_of_agree a1 a2 n fold ha1 ha2
    (fun i h1 h2 => (hagree i h1 h2).2)
  unfold foldScore foldMetrics
  rw [hp, ha]

/-- Witness for C2: n = 5, fold 1 (validation slice = index 1 alone);
the two input pairs agree at index 1 and differ everywhere else. -/
theorem foldScore_depends_only_on_fold_slice_witness :
    foldScore "f1" 1 5 40 5 1 [1, 2, 3, 4, 5] [10, 20, 30, 40, 50]
      = foldScore "f1" 1 5 40 5 1 [9, 2, 8, 7, 6] [0, 20, 0, 0, 0] :=
  foldScore_depends_only_on_fold_slice "f1" 1 5 40 5 1
    [1, 2, 3, 4, 5] [10, 20, 30, 40, 50] [9, 2, 8, 7, 6] [0, 20, 0, 0, 0]
    (by decide) (by decide) (by decide) (by decide) (by decide) (by decide)
    (fun i h1 h2 => by
      have hi : i = 1 := by omega
      subst hi
      exact ⟨rfl, rfl⟩)
